import Mathlib

/-!
Shallow embedding of the inventory management server (Express + Mongoose + Zod).

The embedding translates the request handling code of the repository into pure
Lean functions:

* JavaScript strings are Lean `String`s; the string operations the code uses
  (`toLowerCase`, `trim`, `startsWith`, `substring`, regex substring matching)
  are re-implemented on the underlying character lists so that they compute.
* JavaScript numbers are rationals (`ℚ`); integer query parameters are `ℤ`.
  `parseInt(x) || d` is modelled on `Option ℤ`, where `none` is `NaN`.
* The document store is passed explicitly: a `List Item` for collection-wide
  operations, or a lookup function `String → Option Item` for by-id operations.
* External primitives that the spec designates as collaborators (the JWT
  verifier, bcrypt comparison, the Zod email format check) are oracle
  parameters of the functions that call them.
-/

/-! ## String primitives (JS string semantics on the character list level) -/

/-- Boolean prefix test on character lists. -/
def isPrefixL : List Char → List Char → Bool
  | [], _ => true
  | _ :: _, [] => false
  | a :: as, b :: bs => a == b && isPrefixL as bs

/-- Boolean substring test: does `pat` occur contiguously inside the second list?
This is the semantics of a metacharacter-free regex match, as used by the
controllers via `$regex`. -/
def containsL (pat : List Char) : List Char → Bool
  | [] => isPrefixL pat []
  | b :: rest => isPrefixL pat (b :: rest) || containsL pat rest

/-- JS `String.prototype.toLowerCase` (ASCII-faithful). -/
def strLower (s : String) : String := ⟨s.data.map Char.toLower⟩

/-- Case-insensitive substring containment: the meaning of a
`$regex: pat, $options: "i"` clause for a metacharacter-free pattern. -/
def containsCI (hay pat : String) : Bool :=
  containsL (strLower pat).data (strLower hay).data

/-- Whitespace trimming on character lists (both ends). -/
def trimL (l : List Char) : List Char :=
  ((l.dropWhile Char.isWhitespace).reverse.dropWhile Char.isWhitespace).reverse

/-- JS `String.prototype.trim`, also the Mongoose `trim: true` setter. -/
def strTrim (s : String) : String := ⟨trimL s.data⟩

/-- JS `String.prototype.startsWith`. -/
def strStartsWith (s p : String) : Bool := isPrefixL p.data s.data

/-- JS `String.prototype.substring(n)` for ASCII content. -/
def strDrop (s : String) (n : ℕ) : String := ⟨s.data.drop n⟩

/-- Specification-level notion: `pat` occurs in `hay` up to letter case.
Stated independently of the executable `containsCI`. -/
def CISubstr (hay pat : String) : Prop :=
  ∃ i, ((strLower hay).data.drop i).take (strLower pat).data.length = (strLower pat).data

theorem isPrefixL_eq_true_iff (p s : List Char) :
    isPrefixL p s = true ↔ s.take p.length = p := by
  induction p generalizing s with
  | nil => simp [isPrefixL]
  | cons a as ih =>
    cases s with
    | nil => simp [isPrefixL]
    | cons b bs =>
      simp only [isPrefixL, Bool.and_eq_true, beq_iff_eq, List.length_cons, List.take_succ_cons,
        List.cons.injEq, ih]
      tauto

theorem containsL_eq_true_iff (p s : List Char) :
    containsL p s = true ↔ ∃ i, (s.drop i).take p.length = p := by
  induction s with
  | nil =>
    simp only [containsL, isPrefixL_eq_true_iff, List.drop_nil]
    exact ⟨fun h => ⟨0, h⟩, fun ⟨_, h⟩ => h⟩
  | cons b rest ih =>
    simp only [containsL, Bool.or_eq_true, isPrefixL_eq_true_iff, ih]
    constructor
    · rintro (h | ⟨i, h⟩)
      · exact ⟨0, h⟩
      · exact ⟨i + 1, h⟩
    · rintro ⟨i, h⟩
      cases i with
      | zero => exact Or.inl h
      | succ i => exact Or.inr ⟨i, h⟩

theorem containsCI_eq_true_iff (hay pat : String) :
    containsCI hay pat = true ↔ CISubstr hay pat :=
  containsL_eq_true_iff _ _

/-! ## Data model: Item (src/server/src/models/item.model.ts)

A persisted Item document. Numbers are rationals; `createdAt`/`updatedAt` are
abstract timestamps (naturals), automatically managed by Mongoose
(`timestamps: true`). -/

structure Item where
  itemName : String
  quantity : ℚ
  price : ℚ
  description : String
  category : String
  createdAt : ℕ
  updatedAt : ℕ
  deriving DecidableEq

/-- One Zod issue, as surfaced in the `details` array of a 400 response. -/
structure FieldIssue where
  path : List String
  message : String
  deriving DecidableEq

/-! ## Validation schemas (src/server/src/validators/item.validator.ts)

Each field embeds the Zod check chain in declaration order; a failed check
contributes its issue, and all failures are collected. Note that the Zod
schema applies no trimming: lengths are checked on the raw strings. -/

def itemNameIssues (s : String) : List FieldIssue :=
  (if s.length < 1 then [⟨["itemName"], "Item name is required"⟩] else []) ++
  (if s.length < 2 then [⟨["itemName"], "Item name must be at least 2 characters"⟩] else []) ++
  (if 100 < s.length then [⟨["itemName"], "Item name must not exceed 100 characters"⟩] else [])

def quantityIssues (q : ℚ) : List FieldIssue :=
  (if q.den ≠ 1 then [⟨["quantity"], "Quantity must be an integer"⟩] else []) ++
  (if q < 0 then [⟨["quantity"], "Quantity cannot be negative"⟩] else [])

/-- Zod price checks; the `.finite()` check never fails in the rational model. -/
def priceIssues (p : ℚ) : List FieldIssue :=
  if p < 0 then [⟨["price"], "Price cannot be negative"⟩] else []

def descriptionIssues (s : String) : List FieldIssue :=
  (if s.length < 1 then [⟨["description"], "Description is required"⟩] else []) ++
  (if s.length < 5 then [⟨["description"], "Description must be at least 5 characters"⟩] else []) ++
  (if 500 < s.length then [⟨["description"], "Description must not exceed 500 characters"⟩] else [])

def categoryIssues (s : String) : List FieldIssue :=
  (if s.length < 1 then [⟨["category"], "Category is required"⟩] else []) ++
  (if s.length < 2 then [⟨["category"], "Category must be at least 2 characters"⟩] else []) ++
  (if 50 < s.length then [⟨["category"], "Category must not exceed 50 characters"⟩] else [])

/-- Raw body of a create-Item request, fields already of the expected runtime
types (missing-field and wrong-type Zod errors are upstream of the claims). -/
structure RawItemInput where
  itemName : String
  quantity : ℚ
  price : ℚ
  description : String
  category : String
  deriving DecidableEq

/-- Issue list of `createItemSchema.safeParse`: empty iff parsing succeeds. -/
def createItemIssues (r : RawItemInput) : List FieldIssue :=
  itemNameIssues r.itemName ++ quantityIssues r.quantity ++ priceIssues r.price ++
    descriptionIssues r.description ++ categoryIssues r.category

/-- Raw body of an update-Item request; `updateItemSchema = createItemSchema.partial()`,
so every field is optional. -/
structure RawItemUpdate where
  itemName : Option String
  quantity : Option ℚ
  price : Option ℚ
  description : Option String
  category : Option String
  deriving DecidableEq

/-- Issue list of `updateItemSchema.safeParse`: present fields are checked with
the same per-field chains, absent fields are skipped. -/
def updateItemIssues (r : RawItemUpdate) : List FieldIssue :=
  (match r.itemName with | some s => itemNameIssues s | none => []) ++
  (match r.quantity with | some q => quantityIssues q | none => []) ++
  (match r.price with | some p => priceIssues p | none => []) ++
  (match r.description with | some s => descriptionIssues s | none => []) ++
  (match r.category with | some s => categoryIssues s | none => [])

/-! ## Persistence of Items (Mongoose ItemSchema, src item.model)

The Mongoose schema declares `trim: true` on the three string fields, so the
stored document holds the trimmed strings; `timestamps: true` sets `createdAt`
and `updatedAt` on creation and refreshes `updatedAt` on update. The schema
declares a non-unique `index: true` on `itemName` and `category`; it declares
no uniqueness constraint on any business field. -/

/-- Document produced by `ItemModel.create` at time `now` from validated input. -/
def mkItem (r : RawItemInput) (now : ℕ) : Item :=
  ⟨strTrim r.itemName, r.quantity, r.price, strTrim r.description, strTrim r.category, now, now⟩

/-- Effect of `findByIdAndUpdate(id, parsed.data, new, runValidators)` on the
matched document: supplied fields are replaced (string setters trim), omitted
fields are untouched, `updatedAt` is refreshed, `createdAt` is immutable. -/
def applyUpdate (it : Item) (u : RawItemUpdate) (now : ℕ) : Item where
  itemName := match u.itemName with | some s => strTrim s | none => it.itemName
  quantity := match u.quantity with | some q => q | none => it.quantity
  price := match u.price with | some p => p | none => it.price
  description := match u.description with | some s => strTrim s | none => it.description
  category := match u.category with | some s => strTrim s | none => it.category
  createdAt := it.createdAt
  updatedAt := now

/-! ## Pagination (listItems in src item.controller, listProducts in product.controller)

`parseInt(q) || d` : a parse failure (`NaN`, modelled as `none`) or a parsed
value of `0` (falsy) falls back to the default `d`; any other parsed integer,
negative ones included, is kept. -/

def jsOr (v : Option ℤ) (d : ℤ) : ℤ :=
  match v with
  | none => d
  | some n => if n = 0 then d else n

/-- `Math.min(parseInt(limit) || d, 100)`. -/
def limitNum (d : ℤ) (v : Option ℤ) : ℤ := min (jsOr v d) 100

/-- `Math.max(parseInt(page) || 1, 1)`. -/
def pageNum (v : Option ℤ) : ℤ := max (jsOr v 1) 1

/-- `Math.ceil(a / b)` for integer operands with `b ≠ 0`, as an integer
computation (Euclidean division); `jsCeilDiv_eq_ceil` below certifies that it
is the exact rational ceiling. -/
def jsCeilDiv (a b : ℤ) : ℤ := if 0 ≤ b then -(-a / b) else -(a / -b)

/-- PaginationMeta response shape (src/server/src/types/api.types.ts). -/
structure PaginationMeta where
  total : ℕ
  page : ℤ
  limit : ℤ
  totalPages : ℤ
  hasNextPage : Bool
  hasPrevPage : Bool
  deriving DecidableEq

/-- The meta object both list controllers build: `totalPages = Math.ceil(total/limit)`,
`hasNextPage = page < totalPages`, `hasPrevPage = page > 1`. -/
def buildMeta (d : ℤ) (limitQ pageQ : Option ℤ) (total : ℕ) : PaginationMeta :=
  let l := limitNum d limitQ
  let p := pageNum pageQ
  { total := total
    page := p
    limit := l
    totalPages := jsCeilDiv total l
    hasNextPage := decide (p < jsCeilDiv total l)
    hasPrevPage := decide (1 < p) }

/-- Meta of `GET /items` (default page size 10). -/
def itemsListMeta (limitQ pageQ : Option ℤ) (total : ℕ) : PaginationMeta :=
  buildMeta 10 limitQ pageQ total

/-- Meta of `GET /products` (default page size 20). -/
def productsListMeta (limitQ pageQ : Option ℤ) (total : ℕ) : PaginationMeta :=
  buildMeta 20 limitQ pageQ total

/-! ## Filtering (listItems query construction) -/

/-- Search clause: when the `search` query parameter is truthy (present and
nonempty), the filter matches documents whose `itemName` or `description`
matches the case-insensitive regex; otherwise no clause is added. -/
def searchClause (search : Option String) (it : Item) : Bool :=
  match search with
  | none => true
  | some s => if s == "" then true else containsCI it.itemName s || containsCI it.description s

/-- Category clause: when truthy, a case-insensitive `$regex` match on the
`category` field (substring containment, not equality). -/
def categoryClause (category : Option String) (it : Item) : Bool :=
  match category with
  | none => true
  | some c => if c == "" then true else containsCI it.category c

/-- The Mongo filter object of listItems, as a predicate: the conjunction of
the two optional clauses. -/
def itemMatches (search category : Option String) (it : Item) : Bool :=
  searchClause search it && categoryClause category it

/-- Filter predicate as the claim literally states it: exact equality on the
category field. Kept separate for comparison with `itemMatches`, which is the
translation of the code. -/
def itemMatchesClaimed (search category : Option String) (it : Item) : Bool :=
  searchClause search it &&
    (match category with
     | none => true
     | some c => it.category == c)

/-- Sort `createdAt: -1`, most recently created first. -/
def sortByCreatedDesc (l : List Item) : List Item :=
  List.insertionSort (fun a b => b.createdAt ≤ a.createdAt) l

/-- Response shape of `GET /items`. -/
structure ListItemsResponse where
  data : List Item
  meta : PaginationMeta
  deriving DecidableEq

/-- GET /items over the collection `items`: build the filter, fetch the sorted
page slice (`skip ((page-1)*limit)`, `limit`), count the matching documents,
and assemble the meta object. Skip and limit are clamped at zero when applied
to the list, matching cursor behaviour for the nonnegative values the claims
about data slices concern; the meta fields are computed on the raw integers. -/
def listItems (items : List Item) (search category : Option String)
    (limitQ pageQ : Option ℤ) : ListItemsResponse :=
  let filtered := items.filter (itemMatches search category)
  let l := limitNum 10 limitQ
  let p := pageNum pageQ
  { data := ((sortByCreatedDesc filtered).drop ((p - 1) * l).toNat).take l.toNat
    meta := itemsListMeta limitQ pageQ filtered.length }

/-! ## Statistics (getStats in src item.controller) -/

/-- Inventory value of one item: `price * quantity`. -/
def itemValue (it : Item) : ℚ := it.price * it.quantity

/-- Membership of an item in a category group (`$group` key equality). -/
def inCategory (c : String) (it : Item) : Bool := it.category == c

/-- One entry of the `$group` aggregation output: document count and
`$sum: $multiply price quantity` for the group with key `c`. -/
structure CategoryStat where
  category : String
  count : ℕ
  totalValue : ℚ
  deriving DecidableEq

def mkCategoryStat (items : List Item) (c : String) : CategoryStat :=
  ⟨c, (items.filter (inCategory c)).length, ((items.filter (inCategory c)).map itemValue).sum⟩

/-- Order of the `$sort: count: -1` stage: descending by count. -/
def byCountDesc : CategoryStat → CategoryStat → Prop := fun a b => b.count ≤ a.count

instance : DecidableRel byCountDesc := fun _ _ => Nat.decLe _ _

instance : IsTotal CategoryStat byCountDesc := ⟨fun a b => Nat.le_total b.count a.count⟩

instance : IsTrans CategoryStat byCountDesc := ⟨fun _ _ _ h1 h2 => Nat.le_trans h2 h1⟩

/-- `Math.round(x * 100) / 100`: rounding to 2 decimal places, halves away
from zero upward as JS `Math.round` does. -/
def round2 (q : ℚ) : ℚ := (⌊q * 100 + 1 / 2⌋ : ℚ) / 100

/-- Response shape of `GET /items/stats`. -/
structure StatsResponse where
  totalItems : ℕ
  totalValue : ℚ
  lowStockCount : ℕ
  lowStockThreshold : ℕ
  categoryCount : ℕ
  categories : List CategoryStat
  deriving DecidableEq

/-- GET /items/stats over the collection `items`: total count, rounded total
value, count of documents with `quantity < 10`, distinct category count, and
the per-category breakdown sorted descending by count. -/
def getStats (items : List Item) : StatsResponse where
  totalItems := items.length
  totalValue := round2 ((items.map itemValue).sum)
  lowStockCount := (items.filter (fun it => decide (it.quantity < 10))).length
  lowStockThreshold := 10
  categoryCount := ((items.map Item.category).dedup).length
  categories :=
    List.insertionSort byCountDesc (((items.map Item.category).dedup).map (mkCategoryStat items))

/-! ## By-id CRUD operations (src item.controller) -/

/-- Outcome of an Item endpoint, as status plus body shape. -/
inductive ItemApiResult where
  | verr (details : List FieldIssue)
  | err (status : ℕ) (error : String)
  | okItem (status : ℕ) (it : Item)
  | noContent
  deriving DecidableEq

/-- The `^[0-9a-fA-F]{24}$` ObjectId well-formedness test. -/
def isValidObjectId (s : String) : Bool :=
  s.length == 24 &&
    s.data.all (fun c => c.isDigit || ('a' ≤ c && c ≤ 'f') || ('A' ≤ c && c ≤ 'F'))

/-- GET /items/:id. The store is reached only on a well-formed id. -/
def getItem (store : String → Option Item) (id : String) : ItemApiResult :=
  if !(isValidObjectId id) then .err 400 "Invalid item ID format"
  else
    match store id with
    | none => .err 404 "Item not found"
    | some it => .okItem 200 it

/-- DELETE /items/:id, returning the response and the store afterwards. -/
def deleteItem (store : String → Option Item) (id : String) :
    ItemApiResult × (String → Option Item) :=
  if !(isValidObjectId id) then (.err 400 "Invalid item ID format", store)
  else
    match store id with
    | none => (.err 404 "Item not found", store)
    | some _ => (.noContent, fun k => if k == id then none else store k)

/-- PUT /items/:id: id shape check, body validation, then the update. -/
def updateItem (store : String → Option Item) (id : String) (raw : RawItemUpdate) (now : ℕ) :
    ItemApiResult × (String → Option Item) :=
  if !(isValidObjectId id) then (.err 400 "Invalid item ID format", store)
  else if !(updateItemIssues raw).isEmpty then (.verr (updateItemIssues raw), store)
  else
    match store id with
    | none => (.err 404 "Item not found", store)
    | some it =>
      let it2 := applyUpdate it raw now
      (.okItem 200 it2, fun k => if k == id then some it2 else store k)

/-- POST /items: validate, then `ItemModel.create`. The Mongoose schema has no
uniqueness constraint on `itemName` (only a non-unique index), so the create
always succeeds and the controller branch for duplicate-key error code 11000
is unreachable for name collisions: a duplicate name is stored as a second
document. -/
def createItem (store : List Item) (raw : RawItemInput) (now : ℕ) :
    ItemApiResult × List Item :=
  if (createItemIssues raw).isEmpty then
    (.okItem 201 (mkItem raw now), store ++ [mkItem raw now])
  else (.verr (createItemIssues raw), store)

/-! ## Authorization middleware (requireAuth, src auth.middleware) -/

inductive Role where
  | admin
  | user
  deriving DecidableEq

/-- Decoded JWT claims used by the middleware. -/
structure JWTPayload where
  sub : String
  role : Role
  deriving DecidableEq

/-- Possible outcomes of `jwt.verify` on a presented token: success, the
TokenExpiredError branch, the JsonWebTokenError branch, or any other thrown
error (rethrown by the middleware and caught by its outer handler). -/
inductive VerifyResult where
  | ok (payload : JWTPayload)
  | expired
  | invalid
  | otherError (message : String)
  deriving DecidableEq

/-- Observable outcome of the middleware: a rejection response, a thrown
server-configuration error (surfaced by the error handler with its attached
status code 500), or success handing `sub` and `role` to the next handler. -/
inductive AuthOutcome where
  | reject (status : ℕ) (error : String) (message : Option String)
  | serverError (status : ℕ) (message : String)
  | proceed (userId : String) (role : Role)
  deriving DecidableEq

/-- requireAuth(role?) on one request: header shape check, secret presence
check, token verification through the `verify` oracle, then the role gate. -/
def requireAuth (roleReq : Option Role) (jwtSecret : Option String)
    (authHeader : Option String) (verify : String → String → VerifyResult) : AuthOutcome :=
  match authHeader with
  | none => .reject 401 "Unauthorized" (some "Malformed Authorization header")
  | some h =>
    if !(strStartsWith h "Bearer ") then
      .reject 401 "Unauthorized" (some "Malformed Authorization header")
    else
      match jwtSecret with
      | none => .serverError 500 "JWT_SECRET not configured"
      | some secret =>
        match verify secret (strDrop h 7) with
        | .expired => .reject 401 "Unauthorized" (some "Token expired")
        | .invalid => .reject 401 "Unauthorized" (some "Invalid token")
        | .otherError m => .reject 401 "Unauthorized" (some m)
        | .ok payload =>
          if roleReq = some .admin ∧ payload.role ≠ .admin then
            .reject 403 "Forbidden" none
          else
            .proceed payload.sub payload.role

/-! ## Login (src auth.controller) -/

/-- A persisted User document (password stored as a bcrypt hash). -/
structure UserRec where
  id : String
  email : String
  passwordHash : String
  role : Role
  deriving DecidableEq

structure LoginBody where
  email : String
  password : String
  deriving DecidableEq

/-- Observable outcome of POST /auth/login. -/
inductive LoginResult where
  | verr (details : List FieldIssue)
  | unauthorized (error : String)
  | serverError (message : String)
  | ok (tokenSub : String) (tokenRole : Role) (userId : String) (userEmail : String)
      (userRole : Role)
  deriving DecidableEq

/-- Zod loginSchema issues; the email format test is the library predicate,
passed in as an oracle. -/
def loginIssues (emailValid : String → Bool) (b : LoginBody) : List FieldIssue :=
  (if !(emailValid b.email) then [⟨["email"], "Invalid email format"⟩] else []) ++
  (if b.password.length < 1 then [⟨["password"], "Password is required"⟩] else [])

/-- POST /auth/login: validate, look the user up by lowercased email, compare
the password through the bcrypt oracle, then sign a token with sub and role.
Both authentication failure modes produce the same 401 response. -/
def login (emailValid : String → Bool) (lookup : String → Option UserRec)
    (pwCompare : String → String → Bool) (jwtSecret : Option String)
    (b : LoginBody) : LoginResult :=
  if !(loginIssues emailValid b).isEmpty then .verr (loginIssues emailValid b)
  else
    match lookup (strLower b.email) with
    | none => .unauthorized "Invalid credentials"
    | some u =>
      if !(pwCompare b.password u.passwordHash) then .unauthorized "Invalid credentials"
      else
        match jwtSecret with
        | none => .serverError "JWT_SECRET not configured"
        | some _ => .ok u.id u.role u.id u.email u.role

/-! ## Helper lemmas -/

theorem jsCeilDiv_eq_ceil (a b : ℤ) (hb : b ≠ 0) :
    jsCeilDiv a b = ⌈(a : ℚ) / (b : ℚ)⌉ := by
  rcases hb.lt_or_lt with hneg | hpos
  · have h0 : ¬ (0 ≤ b) := not_le.mpr hneg
    obtain ⟨n, rfl⟩ : ∃ n : ℕ, b = -(n : ℤ) := ⟨(-b).toNat, by omega⟩
    rw [jsCeilDiv, if_neg h0]
    have hcast : ((-(n : ℤ) : ℤ) : ℚ) = -((n : ℕ) : ℚ) := by push_cast; ring
    rw [hcast, div_neg, Int.ceil_neg, Rat.floor_intCast_div_natCast]
    simp
  · obtain ⟨n, rfl⟩ : ∃ n : ℕ, b = (n : ℤ) := ⟨b.toNat, by omega⟩
    rw [jsCeilDiv, if_pos (by omega)]
    have hcast : ((a : ℤ) : ℚ) / (((n : ℤ) : ℤ) : ℚ) = -(((-a : ℤ) : ℚ) / ((n : ℕ) : ℚ)) := by
      push_cast; ring
    rw [hcast, Int.ceil_neg, Rat.floor_intCast_div_natCast]

theorem jsOr_ne_zero (v : Option ℤ) (d : ℤ) (hd : d ≠ 0) : jsOr v d ≠ 0 := by
  cases v with
  | none => simpa [jsOr]
  | some n =>
    by_cases hn : n = 0 <;> simp [jsOr, hn, hd]

theorem limitNum_ne_zero (d : ℤ) (v : Option ℤ) (hd : d ≠ 0) : limitNum d v ≠ 0 := by
  have h := jsOr_ne_zero v d hd
  rw [limitNum]
  rcases le_or_lt (jsOr v d) 100 with h2 | h2
  · rw [min_eq_left h2]; exact h
  · rw [min_eq_right h2.le]; norm_num

theorem map_category_mkCategoryStat (items : List Item) (D : List String) :
    (D.map (mkCategoryStat items)).map CategoryStat.category = D := by
  rw [List.map_map]
  conv_rhs => rw [← List.map_id D]
  exact List.map_congr_left fun a _ => rfl

theorem filter_inCategory_length (items : List Item) (c : String) :
    (items.filter (inCategory c)).length = (items.map Item.category).count c := by
  have h1 : (items.map Item.category).count c =
      List.countP (fun x => x == c) (items.map Item.category) := rfl
  rw [h1, List.countP_map, ← List.countP_eq_length_filter]
  rfl

/-! ## Claims -/

/-- C1: for every collection of persisted Items, GET /items/stats returns
totalValue equal to the sum over all items of price times quantity rounded to
2 decimal places, lowStockCount equal to the number of items with quantity
strictly below 10, and a category breakdown with exactly one entry per
distinct category whose count and totalValue are the per-category document
count and value sum, sorted in descending order of count, with the counts
summing to the total item count. -/
theorem stats_claim (items : List Item) :
    (getStats items).totalValue = round2 ((items.map itemValue).sum) ∧
    (getStats items).lowStockCount =
      (items.filter (fun it => decide (it.quantity < 10))).length ∧
    ((getStats items).categories.map CategoryStat.category).Nodup ∧
    (∀ c : String,
      c ∈ (getStats items).categories.map CategoryStat.category ↔
        c ∈ items.map Item.category) ∧
    (∀ e ∈ (getStats items).categories,
      e.count = (items.filter (inCategory e.category)).length ∧
      e.totalValue = ((items.filter (inCategory e.category)).map itemValue).sum) ∧
    (getStats items).categories.Pairwise (fun a b => b.count ≤ a.count) ∧
    ((getStats items).categories.map CategoryStat.count).sum = items.length := by
  have hperm : ((getStats items).categories).Perm
      (((items.map Item.category).dedup).map (mkCategoryStat items)) :=
    List.perm_insertionSort _ _
  refine ⟨rfl, rfl, ?_, ?_, ?_, ?_, ?_⟩
  · have h1 : ((((items.map Item.category).dedup).map (mkCategoryStat items)).map
        CategoryStat.category).Nodup := by
      rw [map_category_mkCategoryStat]
      exact List.nodup_dedup _
    exact ((hperm.map CategoryStat.category).nodup_iff).mpr h1
  · intro c
    rw [(hperm.map CategoryStat.category).mem_iff, map_category_mkCategoryStat]
    exact List.mem_dedup
  · intro e he
    obtain ⟨c, _, rfl⟩ := List.mem_map.mp (hperm.mem_iff.mp he)
    exact ⟨rfl, rfl⟩
  · exact List.sorted_insertionSort byCountDesc _
  · rw [(hperm.map CategoryStat.count).sum_eq, List.map_map]
    have h3 : (((items.map Item.category).dedup).map
          (CategoryStat.count ∘ mkCategoryStat items)) =
        ((items.map Item.category).dedup).map
          (fun c => (items.map Item.category).count c) :=
      List.map_congr_left fun c _ => filter_inCategory_length items c
    rw [h3, List.sum_map_count_dedup_eq_length, List.length_map]

/-- Concrete item used to instantiate the statistics claim. -/
def itemW1 : Item := ⟨"Widget", 3, 2, "Blue widget", "Tools", 1, 1⟩

/-- Witness for C1: the breakdown entry of the one-item collection satisfies
the per-category count and value equations. -/
theorem stats_claim_witness :
    (mkCategoryStat [itemW1] "Tools").count =
      ([itemW1].filter (inCategory "Tools")).length ∧
    (mkCategoryStat [itemW1] "Tools").totalValue =
      (([itemW1].filter (inCategory "Tools")).map itemValue).sum := by
  have hmem : mkCategoryStat [itemW1] "Tools" ∈ (getStats [itemW1]).categories :=
    List.Mem.head _
  exact (stats_claim [itemW1]).2.2.2.2.1 _ hmem

/-- Five concrete items for the pagination scenario of C2. -/
def fiveItems : List Item :=
  [⟨"Alpha", 1, 2, "first item", "CatA", 1, 1⟩,
   ⟨"Beta", 2, 3, "second item", "CatA", 2, 2⟩,
   ⟨"Gamma", 3, 4, "third item", "CatB", 3, 3⟩,
   ⟨"Delta", 4, 5, "fourth item", "CatB", 4, 4⟩,
   ⟨"Epsilon", 5, 6, "fifth item", "CatC", 5, 5⟩]

/-- C2: for every Item list request the page number is clamped to at least 1,
the page size is clamped to at most 100 (default 10), and the metadata
satisfies totalPages = ceil(total / limit), hasNextPage = (page < totalPages),
hasPrevPage = (page > 1); with 5 stored items and page=1, limit=2 the metadata
is total 5, page 1, limit 2, totalPages 3, hasNextPage true, hasPrevPage
false, and the returned data slice has length 2. -/
theorem listItems_pagination_claim (limitQ pageQ : Option ℤ) (total : ℕ) :
    (1 ≤ (itemsListMeta limitQ pageQ total).page ∧
      (itemsListMeta limitQ pageQ total).limit ≤ 100 ∧
      (itemsListMeta limitQ pageQ total).totalPages =
        ⌈(total : ℚ) / ((itemsListMeta limitQ pageQ total).limit : ℚ)⌉ ∧
      ((itemsListMeta limitQ pageQ total).hasNextPage = true ↔
        (itemsListMeta limitQ pageQ total).page <
          (itemsListMeta limitQ pageQ total).totalPages) ∧
      ((itemsListMeta limitQ pageQ total).hasPrevPage = true ↔
        1 < (itemsListMeta limitQ pageQ total).page)) ∧
    ((listItems fiveItems none none (some 2) (some 1)).meta =
        ⟨5, 1, 2, 3, true, false⟩ ∧
      (listItems fiveItems none none (some 2) (some 1)).data.length = 2) := by
  refine ⟨⟨?_, ?_, ?_, ?_, ?_⟩, by decide, by decide⟩
  · exact le_max_right _ _
  · exact min_le_right _ _
  · exact jsCeilDiv_eq_ceil _ _ (limitNum_ne_zero 10 limitQ (by norm_num))
  · simp [itemsListMeta, buildMeta]
  · simp [itemsListMeta, buildMeta]

/-- C10: the list operations clamp the page size only from above. A limit
query parameter parsing to a negative integer n is used unchanged and echoed
back as meta.limit for both the Item and the Product list, totalPages =
ceil(total / n) is non-positive, and hasNextPage is false regardless of the
total; a limit parsing to 0 or failing to parse falls back to the per-entity
default (10 for items, 20 for products). -/
theorem negative_limit_claim (limitQ pageQ : Option ℤ) (total : ℕ) (n : ℤ) :
    (limitQ = some n → n < 0 →
      (itemsListMeta limitQ pageQ total).limit = n ∧
      (productsListMeta limitQ pageQ total).limit = n ∧
      (itemsListMeta limitQ pageQ total).totalPages = ⌈(total : ℚ) / (n : ℚ)⌉ ∧
      (itemsListMeta limitQ pageQ total).totalPages ≤ 0 ∧
      (productsListMeta limitQ pageQ total).totalPages ≤ 0 ∧
      (itemsListMeta limitQ pageQ total).hasNextPage = false ∧
      (productsListMeta limitQ pageQ total).hasNextPage = false) ∧
    (limitQ = none ∨ limitQ = some 0 →
      (itemsListMeta limitQ pageQ total).limit = 10 ∧
      (productsListMeta limitQ pageQ total).limit = 20) := by
  constructor
  · rintro rfl hn
    have hl : ∀ d : ℤ, limitNum d (some n) = n := by
      intro d
      rw [limitNum, jsOr, if_neg (by omega)]
      exact min_eq_left (by omega)
    have htp : ∀ d : ℤ, jsCeilDiv total (limitNum d (some n)) ≤ 0 := by
      intro d
      rw [hl d, jsCeilDiv, if_neg (by omega)]
      have : (0 : ℤ) ≤ (total : ℤ) / -n := Int.ediv_nonneg (by positivity) (by omega)
      omega
    have hnext : ∀ d : ℤ,
        decide (pageNum pageQ < jsCeilDiv total (limitNum d (some n))) = false := by
      intro d
      have h1 : 1 ≤ pageNum pageQ := le_max_right _ _
      have h2 := htp d
      simp only [decide_eq_false_iff_not]
      omega
    refine ⟨hl 10, hl 20, ?_, htp 10, htp 20, hnext 10, hnext 20⟩
    show jsCeilDiv total (limitNum 10 (some n)) = _
    rw [hl 10]
    exact jsCeilDiv_eq_ceil _ _ (by omega)
  · rintro (rfl | rfl) <;>
      exact ⟨by simp [itemsListMeta, buildMeta, limitNum, jsOr],
        by simp [productsListMeta, buildMeta, limitNum, jsOr]⟩

/-- Witness for C10: with limit parsing to -5 and 7 stored documents both list
endpoints echo -5, report non-positive totalPages and no next page; an absent
or zero limit falls back to the defaults 10 and 20. -/
theorem negative_limit_claim_witness :
    (itemsListMeta (some (-5)) none 7).limit = -5 ∧
    (productsListMeta (some (-5)) none 7).limit = -5 ∧
    (itemsListMeta (some (-5)) none 7).totalPages ≤ 0 ∧
    (itemsListMeta (some (-5)) none 7).hasNextPage = false ∧
    (productsListMeta (some (-5)) none 7).hasNextPage = false ∧
    (itemsListMeta none none 3).limit = 10 ∧
    (productsListMeta (some 0) none 3).limit = 20 := by
  obtain ⟨a, b, _, d, _, f, g⟩ :=
    (negative_limit_claim (some (-5)) none 7 (-5)).1 rfl (by decide)
  exact ⟨a, b, d, f, g,
    ((negative_limit_claim none none 3 0).2 (Or.inl rfl)).1,
    ((negative_limit_claim (some 0) none 3 0).2 (Or.inr rfl)).2⟩

/-- C3: for every request entering the authorization middleware, a missing or
non-Bearer Authorization header is rejected 401 with no token verification
performed (the outcome does not depend on the verifier); a verified but
expired token yields 401 with the message Token expired; an invalid token
yields 401 with the message Invalid token; and an unconfigured signing secret
yields a 500 server-configuration outcome distinct from every 401 rejection. -/
theorem requireAuth_claim (roleReq : Option Role) (jwtSecret : Option String)
    (authHeader : Option String) (verify : String → String → VerifyResult) :
    ((authHeader = none ∨ ∀ h, authHeader = some h → strStartsWith h "Bearer " = false) →
      requireAuth roleReq jwtSecret authHeader verify =
        .reject 401 "Unauthorized" (some "Malformed Authorization header") ∧
      ∀ verify2, requireAuth roleReq jwtSecret authHeader verify2 =
        requireAuth roleReq jwtSecret authHeader verify) ∧
    (∀ h secret, authHeader = some h → strStartsWith h "Bearer " = true →
      jwtSecret = some secret → verify secret (strDrop h 7) = .expired →
      requireAuth roleReq jwtSecret authHeader verify =
        .reject 401 "Unauthorized" (some "Token expired")) ∧
    (∀ h secret, authHeader = some h → strStartsWith h "Bearer " = true →
      jwtSecret = some secret → verify secret (strDrop h 7) = .invalid →
      requireAuth roleReq jwtSecret authHeader verify =
        .reject 401 "Unauthorized" (some "Invalid token")) ∧
    (∀ h, authHeader = some h → strStartsWith h "Bearer " = true → jwtSecret = none →
      requireAuth roleReq jwtSecret authHeader verify =
        .serverError 500 "JWT_SECRET not configured" ∧
      ∀ s e m, requireAuth roleReq jwtSecret authHeader verify ≠ .reject s e m) := by
  refine ⟨?_, ?_, ?_, ?_⟩
  · rintro (rfl | hmal)
    · exact ⟨rfl, fun _ => rfl⟩
    · cases authHeader with
      | none => exact ⟨rfl, fun _ => rfl⟩
      | some h =>
        have hf := hmal h rfl
        constructor
        · simp [requireAuth, hf]
        · intro verify2
          simp [requireAuth, hf]
  · rintro h secret rfl hpre rfl hv
    simp [requireAuth, hpre, hv]
  · rintro h secret rfl hpre rfl hv
    simp [requireAuth, hpre, hv]
  · rintro h rfl hpre rfl
    refine ⟨by simp [requireAuth, hpre], ?_⟩
    intro s e m
    simp [requireAuth, hpre]

/-- Witness for C3: concrete requests exercising each middleware outcome. -/
theorem requireAuth_claim_witness :
    requireAuth none (some "s3cret") none (fun _ _ => .invalid) =
      .reject 401 "Unauthorized" (some "Malformed Authorization header") ∧
    requireAuth none (some "s3cret") (some "Token abc") (fun _ _ => .invalid) =
      requireAuth none (some "s3cret") (some "Token abc") (fun _ _ => .expired) ∧
    requireAuth none (some "s3cret") (some "Bearer abc") (fun _ _ => .expired) =
      .reject 401 "Unauthorized" (some "Token expired") ∧
    requireAuth none (some "s3cret") (some "Bearer abc") (fun _ _ => .invalid) =
      .reject 401 "Unauthorized" (some "Invalid token") ∧
    requireAuth none none (some "Bearer abc") (fun _ _ => .invalid) =
      .serverError 500 "JWT_SECRET not configured" ∧
    requireAuth none none (some "Bearer abc") (fun _ _ => .invalid) ≠
      .reject 401 "Unauthorized" (some "Invalid token") := by
  refine ⟨?_, ?_, ?_, ?_, ?_, ?_⟩
  · exact ((requireAuth_claim none (some "s3cret") none (fun _ _ => .invalid)).1
      (Or.inl rfl)).1
  · exact ((requireAuth_claim none (some "s3cret") (some "Token abc")
      (fun _ _ => .expired)).1
      (Or.inr (by intro h hh; cases hh; decide))).2 (fun _ _ => .invalid)
  · exact (requireAuth_claim none (some "s3cret") (some "Bearer abc")
      (fun _ _ => .expired)).2.1 "Bearer abc" "s3cret" rfl (by decide) rfl rfl
  · exact (requireAuth_claim none (some "s3cret") (some "Bearer abc")
      (fun _ _ => .invalid)).2.2.1 "Bearer abc" "s3cret" rfl (by decide) rfl rfl
  · exact ((requireAuth_claim none none (some "Bearer abc")
      (fun _ _ => .invalid)).2.2.2 "Bearer abc" rfl (by decide) rfl).1
  · exact ((requireAuth_claim none none (some "Bearer abc")
      (fun _ _ => .invalid)).2.2.2 "Bearer abc" rfl (by decide) rfl).2 401
      "Unauthorized" (some "Invalid token")

/-- C4: for every id supplied to the Item get, update or delete operations, an
id that is not exactly 24 hexadecimal characters yields 400 without any
document-store lookup (the outcome does not depend on the store and the store
is unchanged); a well-formed id matching no Item yields 404 (for update, with
a valid body so that the id path is reached). -/
theorem id_validation_claim (store : String → Option Item) (id : String) :
    (isValidObjectId id = false →
      getItem store id = .err 400 "Invalid item ID format" ∧
      (∀ store2, getItem store2 id = getItem store id) ∧
      (∀ raw now, (updateItem store id raw now).1 = .err 400 "Invalid item ID format" ∧
        (updateItem store id raw now).2 = store ∧
        ∀ store2, (updateItem store2 id raw now).1 = (updateItem store id raw now).1) ∧
      (deleteItem store id).1 = .err 400 "Invalid item ID format" ∧
      (deleteItem store id).2 = store ∧
      (∀ store2, (deleteItem store2 id).1 = (deleteItem store id).1)) ∧
    (isValidObjectId id = true → store id = none →
      getItem store id = .err 404 "Item not found" ∧
      (∀ raw now, updateItemIssues raw = [] →
        (updateItem store id raw now).1 = .err 404 "Item not found") ∧
      (deleteItem store id).1 = .err 404 "Item not found") := by
  constructor
  · intro hbad
    refine ⟨by simp [getItem, hbad], fun store2 => by simp [getItem, hbad], ?_, ?_, ?_, ?_⟩
    · intro raw now
      refine ⟨by simp [updateItem, hbad], by simp [updateItem, hbad], ?_⟩
      intro store2
      simp [updateItem, hbad]
    · simp [deleteItem, hbad]
    · simp [deleteItem, hbad]
    · intro store2
      simp [deleteItem, hbad]
  · intro hok hnone
    refine ⟨by simp [getItem, hok, hnone], ?_, by simp [deleteItem, hok, hnone]⟩
    intro raw now hraw
    simp [updateItem, hok, hraw, hnone]

/-- Empty partial update: every field absent, accepted by the update schema. -/
def emptyUpdate : RawItemUpdate := ⟨none, none, none, none, none⟩

/-- Witness for C4: a malformed id is rejected with 400 on all three
operations independently of the store, and a well-formed unknown id yields
404 on all three. -/
theorem id_validation_claim_witness :
    getItem (fun _ => none) "not-hex" = .err 400 "Invalid item ID format" ∧
    getItem (fun _ => some itemW1) "not-hex" = getItem (fun _ => none) "not-hex" ∧
    (updateItem (fun _ => none) "not-hex" emptyUpdate 3).1 =
      .err 400 "Invalid item ID format" ∧
    (deleteItem (fun _ => none) "not-hex").1 = .err 400 "Invalid item ID format" ∧
    getItem (fun _ => none) "0123456789abcdef01234567" = .err 404 "Item not found" ∧
    (updateItem (fun _ => none) "0123456789abcdef01234567" emptyUpdate 3).1 =
      .err 404 "Item not found" ∧
    (deleteItem (fun _ => none) "0123456789abcdef01234567").1 =
      .err 404 "Item not found" := by
  obtain ⟨a, b, c, d, _, _⟩ := (id_validation_claim (fun _ => none) "not-hex").1 (by decide)
  obtain ⟨e, f, g⟩ :=
    (id_validation_claim (fun _ => none) "0123456789abcdef01234567").2 (by decide) rfl
  exact ⟨a, b (fun _ => some itemW1), (c emptyUpdate 3).1, d, e, f emptyUpdate 3 rfl, g⟩

/-- Concrete item whose category strictly contains the query value. -/
def itemC5 : Item := ⟨"Wood table", 1, 1, "Solid oak", "abc", 0, 0⟩

/-- Counterexample to C5 as stated: the category parameter ab selects an item
whose category field is abc, which is not an exact match; the store filter is
a case-insensitive regex containment, and the claimed exact-equality filter
disagrees with it on this input. -/
theorem category_filter_counterexample :
    itemMatches none (some "ab") itemC5 = true ∧
    itemMatchesClaimed none (some "ab") itemC5 = false ∧
    itemC5.category ≠ "ab" ∧
    (listItems [itemC5] none (some "ab") none none).data = [itemC5] ∧
    (listItems [itemC5] none (some "ab") none none).meta.total = 1 := by
  decide

/-- C5 amended: the applied filter is the conjunction of the optional
predicates; the search parameter selects items whose itemName OR description
contains the search string as a case-insensitive substring, and the category
parameter selects items whose category field contains the requested value as
a case-insensitive substring (a regex match, not exact equality). -/
theorem list_filter_amended (items : List Item) (search category : Option String)
    (limitQ pageQ : Option ℤ) (s c : String) (it : Item) (hs : s ≠ "") (hc : c ≠ "") :
    (listItems items search category limitQ pageQ).meta.total =
      (items.filter (itemMatches search category)).length ∧
    (itemMatches (some s) (some c) it = true ↔
      (CISubstr it.itemName s ∨ CISubstr it.description s) ∧ CISubstr it.category c) ∧
    (itemMatches none (some c) it = true ↔ CISubstr it.category c) ∧
    (itemMatches (some s) none it = true ↔
      (CISubstr it.itemName s ∨ CISubstr it.description s)) ∧
    itemMatches none none it = true := by
  have hs2 : (s == "") = false := by simpa using hs
  have hc2 : (c == "") = false := by simpa using hc
  refine ⟨rfl, ?_, ?_, ?_, rfl⟩ <;>
    simp [itemMatches, searchClause, categoryClause, hs2, hc2, containsCI_eq_true_iff]

/-- Witness for C5 amended: a concrete filtered request satisfying the
characterization. -/
theorem list_filter_amended_witness :
    (itemMatches (some "oo") (some "ab") itemC5 = true ↔
      (CISubstr itemC5.itemName "oo" ∨ CISubstr itemC5.description "oo") ∧
        CISubstr itemC5.category "ab") ∧
    (listItems [itemC5] (some "oo") (some "ab") none none).meta.total =
      ([itemC5].filter (itemMatches (some "oo") (some "ab"))).length := by
  obtain ⟨h1, h2, _, _, _⟩ := list_filter_amended [itemC5] (some "oo") (some "ab")
    none none "oo" "ab" itemC5 (by decide) (by decide)
  exact ⟨h2, h1⟩

/-- Raw create input whose itemName is a single letter padded with spaces. -/
def rawC6 : RawItemInput := ⟨" a ", 1, 1, "abcde", "AB"⟩

/-- Counterexample to C6 as stated: the padded itemName of raw length 3 passes
validation with no issue even though its trimmed length is below the
2-character minimum, because the Zod schema checks lengths without trimming. -/
theorem trim_counterexample :
    createItemIssues rawC6 = [] ∧
    rawC6.itemName.length = 3 ∧
    strTrim rawC6.itemName = "a" ∧
    (strTrim rawC6.itemName).length < 2 := by
  decide

theorem ite_singleton_eq_nil {α : Type} (c : Prop) [Decidable c] (x : α) :
    ((if c then [x] else []) = []) ↔ ¬c := by
  by_cases h : c <;> simp [h]

theorem itemNameIssues_eq_nil (s : String) :
    itemNameIssues s = [] ↔ 2 ≤ s.length ∧ s.length ≤ 100 := by
  simp only [itemNameIssues, List.append_eq_nil, ite_singleton_eq_nil, not_lt]
  omega

theorem quantityIssues_eq_nil (q : ℚ) :
    quantityIssues q = [] ↔ q.den = 1 ∧ 0 ≤ q := by
  simp [quantityIssues, List.append_eq_nil, ite_singleton_eq_nil, not_lt]

theorem priceIssues_eq_nil (p : ℚ) : priceIssues p = [] ↔ 0 ≤ p := by
  simp [priceIssues, ite_singleton_eq_nil, not_lt]

theorem descriptionIssues_eq_nil (s : String) :
    descriptionIssues s = [] ↔ 5 ≤ s.length ∧ s.length ≤ 500 := by
  simp only [descriptionIssues, List.append_eq_nil, ite_singleton_eq_nil, not_lt]
  omega

theorem categoryIssues_eq_nil (s : String) :
    categoryIssues s = [] ↔ 2 ≤ s.length ∧ s.length ≤ 50 := by
  simp only [categoryIssues, List.append_eq_nil, ite_singleton_eq_nil, not_lt]
  omega

/-- C6 amended: the validation schema applies no trimming; each string field
has its length bounds checked on the raw string, so an itemName of one letter
padded with spaces to raw length 3 passes the 2-character minimum. Trimming of
leading and trailing whitespace happens only at the persistence layer, after
validation. -/
theorem validation_no_trim_amended (r : RawItemInput) :
    (createItemIssues r = [] ↔
      (2 ≤ r.itemName.length ∧ r.itemName.length ≤ 100) ∧
      (r.quantity.den = 1 ∧ 0 ≤ r.quantity) ∧
      0 ≤ r.price ∧
      (5 ≤ r.description.length ∧ r.description.length ≤ 500) ∧
      (2 ≤ r.category.length ∧ r.category.length ≤ 50)) ∧
    (∀ now, (mkItem r now).itemName = strTrim r.itemName ∧
      (mkItem r now).description = strTrim r.description ∧
      (mkItem r now).category = strTrim r.category) := by
  constructor
  · simp [createItemIssues, List.append_eq_nil, itemNameIssues_eq_nil,
      quantityIssues_eq_nil, priceIssues_eq_nil, descriptionIssues_eq_nil,
      categoryIssues_eq_nil, and_assoc]
  · intro now
    exact ⟨rfl, rfl, rfl⟩

/-- Valid create input whose itemName collides with an already stored item. -/
def rawC7 : RawItemInput := ⟨"Test Laptop", 1, 2, "A laptop for testing", "Electronics"⟩

/-- C7 evaluated at the failing input: with an item named Test Laptop already
stored, a second valid POST /items with the same itemName succeeds with 201
and a second document with that name is persisted, because the Mongoose
schema declares no uniqueness constraint on itemName and the duplicate-key
branch of the controller never fires for name collisions. The spec and the
controller duplicate-name handler say the second create should fail 400. -/
theorem duplicate_name_code_bug :
    (createItem [mkItem rawC7 0] rawC7 1).1 = .okItem 201 (mkItem rawC7 1) ∧
    ((createItem [mkItem rawC7 0] rawC7 1).2.filter
      (fun it => it.itemName == "Test Laptop")).length = 2 := by
  decide

/-- C8: for every existing Item and valid partial update, the update changes
only the supplied fields; every omitted field retains its pre-update value,
createdAt is unchanged, and updatedAt strictly increases when the update
happens after the previous mutation; and PUT /items/:id on a matching id
returns exactly the document so updated and stores it back under the id. -/
theorem update_frame_claim (it : Item) (u : RawItemUpdate) (now : ℕ) :
    ((u.itemName = none → (applyUpdate it u now).itemName = it.itemName) ∧
     (u.quantity = none → (applyUpdate it u now).quantity = it.quantity) ∧
     (u.price = none → (applyUpdate it u now).price = it.price) ∧
     (u.description = none → (applyUpdate it u now).description = it.description) ∧
     (u.category = none → (applyUpdate it u now).category = it.category)) ∧
    (applyUpdate it u now).createdAt = it.createdAt ∧
    (applyUpdate it u now).updatedAt = now ∧
    (it.updatedAt < now → it.updatedAt < (applyUpdate it u now).updatedAt) ∧
    (∀ store id, isValidObjectId id = true → updateItemIssues u = [] →
      store id = some it →
      (updateItem store id u now).1 = .okItem 200 (applyUpdate it u now) ∧
      (updateItem store id u now).2 id = some (applyUpdate it u now)) := by
  refine ⟨⟨?_, ?_, ?_, ?_, ?_⟩, rfl, rfl, fun h => h, ?_⟩
  · intro h; simp [applyUpdate, h]
  · intro h; simp [applyUpdate, h]
  · intro h; simp [applyUpdate, h]
  · intro h; simp [applyUpdate, h]
  · intro h; simp [applyUpdate, h]
  · intro store id hid hu hst
    constructor <;> simp [updateItem, hid, hu, hst]

/-- Stored item and update used to instantiate the frame claim. -/
def itemW8 : Item := ⟨"Chair", 4, 9, "Office chair", "Furniture", 2, 3⟩

/-- Partial update supplying only the quantity. -/
def updW8 : RawItemUpdate := ⟨none, some 7, none, none, none⟩

def storeW8 : String → Option Item :=
  fun k => if k == "0123456789abcdef01234567" then some itemW8 else none

/-- Witness for C8: updating only the quantity leaves name, price and
createdAt unchanged, strictly bumps updatedAt, and the endpoint returns the
updated document. -/
theorem update_frame_claim_witness :
    (applyUpdate itemW8 updW8 9).itemName = itemW8.itemName ∧
    (applyUpdate itemW8 updW8 9).price = itemW8.price ∧
    (applyUpdate itemW8 updW8 9).createdAt = itemW8.createdAt ∧
    itemW8.updatedAt < (applyUpdate itemW8 updW8 9).updatedAt ∧
    (updateItem storeW8 "0123456789abcdef01234567" updW8 9).1 =
      .okItem 200 (applyUpdate itemW8 updW8 9) := by
  obtain ⟨⟨h1, _, h3, _, _⟩, h6, _, h8, h9⟩ := update_frame_claim itemW8 updW8 9
  refine ⟨h1 rfl, h3 rfl, h6, h8 (by decide), ?_⟩
  exact (h9 storeW8 "0123456789abcdef01234567" (by decide) (by decide) (by decide)).1

/-- C9: every login that fails authentication produces the identical
observable response, 401 with error Invalid credentials, whether the email is
unknown or the email exists and the password comparison fails; in particular
any two failing requests are indistinguishable to the client. -/
theorem login_no_leak_claim (emailValid : String → Bool)
    (lookup : String → Option UserRec) (pwCompare : String → String → Bool)
    (jwtSecret : Option String) (b : LoginBody)
    (hv : loginIssues emailValid b = [])
    (hfail : lookup (strLower b.email) = none ∨
      ∃ u, lookup (strLower b.email) = some u ∧
        pwCompare b.password u.passwordHash = false) :
    login emailValid lookup pwCompare jwtSecret b = .unauthorized "Invalid credentials" ∧
    ∀ (lookup2 : String → Option UserRec) (pwCompare2 : String → String → Bool)
      (b2 : LoginBody), loginIssues emailValid b2 = [] →
      (lookup2 (strLower b2.email) = none ∨
        ∃ u, lookup2 (strLower b2.email) = some u ∧
          pwCompare2 b2.password u.passwordHash = false) →
      login emailValid lookup2 pwCompare2 jwtSecret b2 =
        login emailValid lookup pwCompare jwtSecret b := by
  have main : ∀ (lk : String → Option UserRec) (pc : String → String → Bool)
      (bb : LoginBody), loginIssues emailValid bb = [] →
      (lk (strLower bb.email) = none ∨
        ∃ u, lk (strLower bb.email) = some u ∧ pc bb.password u.passwordHash = false) →
      login emailValid lk pc jwtSecret bb = .unauthorized "Invalid credentials" := by
    intro lk pc bb hv2 hf
    rcases hf with hnone | ⟨u, hu, hpw⟩
    · simp [login, hv2, hnone]
    · simp [login, hv2, hu, hpw]
  have h1 := main lookup pwCompare b hv hfail
  exact ⟨h1, fun lk2 pc2 b2 hv2 hf2 => by rw [main lk2 pc2 b2 hv2 hf2, h1]⟩

def userW9 : UserRec := ⟨"u1", "a@x.com", "hash", .user⟩

def lookupW9 : String → Option UserRec :=
  fun e => if e == "a@x.com" then some userW9 else none

/-- Witness for C9: a login against an empty user set and a login with the
right email but failing password comparison return the same response. -/
theorem login_no_leak_claim_witness :
    login (fun _ => true) (fun _ => none) (fun _ _ => true) (some "s3cret")
      ⟨"A@x.com", "pw"⟩ = .unauthorized "Invalid credentials" ∧
    login (fun _ => true) lookupW9 (fun _ _ => false) (some "s3cret")
        ⟨"A@x.com", "pw"⟩ =
      login (fun _ => true) (fun _ => none) (fun _ _ => true) (some "s3cret")
        ⟨"A@x.com", "pw"⟩ := by
  obtain ⟨h1, h2⟩ := login_no_leak_claim (fun _ => true) (fun _ => none)
    (fun _ _ => true) (some "s3cret") ⟨"A@x.com", "pw"⟩ (by decide) (Or.inl rfl)
  refine ⟨h1, h2 lookupW9 (fun _ _ => false) ⟨"A@x.com", "pw"⟩ (by decide) ?_⟩
  exact Or.inr ⟨userW9, by decide, rfl⟩
